import Mathlib

/-
Verification of the DGIdb drug-gene-interaction parser (src/parser.py).

The module transforms rows of a tab-separated interactions table into
normalized documents (subject = drug, object = gene, association =
interaction evidence), resolving missing identifiers through two lookup
services and discarding rows that cannot be identified.

Modelling conventions:
* Python `str` values that may also be `None` are modelled as `Option String`
  (`none` = Python `None`).
* The two network-bound query helpers `query_entrez_id` / `query_chembl_id`
  (src/parser.py lines 25-52) wrap HTTP calls; they are modelled as oracle
  functions `String → Option String` carried by an `Env` record (`none`
  covers a non-200 status, an empty hit list, an empty id field, i.e. every
  "no result" outcome of the Python helpers).  Python's builtin `float`
  conversion is likewise carried as an oracle `String → Option Float`
  (`none` = `ValueError`).
* Python string methods (`startswith`, `split`, `replace`, `join`) are given
  executable models over `String.data` because the corresponding Lean
  builtins do not reduce in the kernel.
* `hashlib.blake2b(..., digest_size=8).hexdigest()` is implemented in full
  (RFC 7693) over byte lists.
-/

/-! ### Models of Python primitives -/

/-- Python string conversion of a `str | None` value, as performed by
f-string interpolation: `None` prints as `"None"`. -/
def pyStr : Option String → String
  | none => "None"
  | some s => s

/-- Python `s.startswith(p)`: `p` is a character-wise prefix of `s`. -/
def py_startswith (s p : String) : Bool := p.data.isPrefixOf s.data

/-- Splitting a character list at every occurrence of `sep`.  The result is
never empty: the empty list splits to `[[]]`. -/
def splitChar (sep : Char) : List Char → List (List Char)
  | [] => [[]]
  | c :: cs =>
    if c = sep then [] :: splitChar sep cs
    else
      match splitChar sep cs with
      | [] => [[c]]
      | h :: t => (c :: h) :: t

/-- Python `s.split(sep)` for a single-character separator (the source only
splits on `":"` and `","`).  `"".split(",") = [""]`, as in Python. -/
def py_split (s : String) (sep : Char) : List String := (splitChar sep s.data).map String.mk

/-- Python `s.replace(old, new)` for single-character `old`/`new` (the source
only calls `.replace(" ", "_")`). -/
def py_replace (s : String) (a b : Char) : String :=
  String.mk (s.data.map (fun c => if c = a then b else c))

/-- Python `xs[-1]`.  Used only on results of `py_split`, which are never
empty, so the `""` default is unreachable. -/
def py_last (xs : List String) : String := xs.getLast?.getD ""

/-! ### blake2b (RFC 7693), as used by `hashlib.blake2b(digest_size=8)` -/

/-- Addition modulo 2^64. -/
def add64 (a b : Nat) : Nat := (a + b) % 18446744073709551616

/-- Bitwise xor (closed on values below 2^64). -/
def xor64 (a b : Nat) : Nat := a ^^^ b

/-- Right rotation of a 64-bit word. -/
def rotr64 (x n : Nat) : Nat := ((x >>> n) ||| (x <<< (64 - n))) % 18446744073709551616

/-- blake2b initialization vector. -/
def blakeIV : List Nat :=
  [0x6a09e667f3bcc908, 0xbb67ae8584caa73b, 0x3c6ef372fe94f82b, 0xa54ff53a5f1d36f1,
   0x510e527fade682d1, 0x9b05688c2b3e6c1f, 0x1f83d9abfb41bd6b, 0x5be0cd19137e2179]

/-- blake2b message schedule permutations. -/
def blakeSigma : List (List Nat) :=
  [[0, 1, 2, 3, 4, 5, 6, 7, 8, 9, 10, 11, 12, 13, 14, 15],
   [14, 10, 4, 8, 9, 15, 13, 6, 1, 12, 0, 2, 11, 7, 5, 3],
   [11, 8, 12, 0, 5, 2, 15, 13, 10, 14, 3, 6, 7, 1, 9, 4],
   [7, 9, 3, 1, 13, 12, 11, 14, 2, 6, 5, 10, 4, 0, 15, 8],
   [9, 0, 5, 7, 2, 4, 10, 15, 14, 1, 11, 12, 6, 8, 3, 13],
   [2, 12, 6, 10, 0, 11, 8, 3, 4, 13, 7, 5, 15, 14, 1, 9],
   [12, 5, 1, 15, 14, 13, 4, 10, 0, 7, 6, 3, 9, 2, 8, 11],
   [13, 11, 7, 14, 12, 1, 3, 9, 5, 0, 15, 4, 8, 6, 2, 10],
   [6, 15, 14, 9, 11, 3, 0, 8, 12, 2, 13, 7, 1, 4, 10, 5],
   [10, 2, 8, 4, 7, 6, 1, 5, 15, 11, 9, 14, 3, 12, 13, 0]]

/-- blake2b mixing function G on the 16-word working vector. -/
def gmix (v : List Nat) (a b c d x y : Nat) : List Nat :=
  let va := add64 (add64 (v.getD a 0) (v.getD b 0)) x
  let vd := rotr64 (xor64 (v.getD d 0) va) 32
  let vc := add64 (v.getD c 0) vd
  let vb := rotr64 (xor64 (v.getD b 0) vc) 24
  let va2 := add64 (add64 va vb) y
  let vd2 := rotr64 (xor64 vd va2) 16
  let vc2 := add64 vc vd2
  let vb2 := rotr64 (xor64 vb vc2) 63
  (((v.set a va2).set b vb2).set c vc2).set d vd2

/-- One blake2b round: eight applications of G driven by the schedule. -/
def blakeRound (m : List Nat) (v : List Nat) (i : Nat) : List Nat :=
  let s := blakeSigma.getD (i % 10) []
  let mi := fun j => m.getD (s.getD j 0) 0
  let v := gmix v 0 4 8 12 (mi 0) (mi 1)
  let v := gmix v 1 5 9 13 (mi 2) (mi 3)
  let v := gmix v 2 6 10 14 (mi 4) (mi 5)
  let v := gmix v 3 7 11 15 (mi 6) (mi 7)
  let v := gmix v 0 5 10 15 (mi 8) (mi 9)
  let v := gmix v 1 6 11 12 (mi 10) (mi 11)
  let v := gmix v 2 7 8 13 (mi 12) (mi 13)
  gmix v 3 4 9 14 (mi 14) (mi 15)

/-- Little-endian byte list to word. -/
def bytesToWord (bs : List Nat) : Nat := bs.foldr (fun b acc => b + 256 * acc) 0

/-- The sixteen 64-bit message words of a 128-byte block. -/
def blockWords (block : List Nat) : List Nat :=
  (List.range 16).map (fun i => bytesToWord ((block.drop (8 * i)).take 8))

/-- blake2b compression function F. -/
def blakeCompress (h : List Nat) (block : List Nat) (t : Nat) (last : Bool) : List Nat :=
  let m := blockWords block
  let v := h ++ blakeIV
  let v := v.set 12 (xor64 (v.getD 12 0) (t % 18446744073709551616))
  let v := v.set 13 (xor64 (v.getD 13 0) (t / 18446744073709551616))
  let v := if last then v.set 14 (xor64 (v.getD 14 0) 18446744073709551615) else v
  let v := (List.range 12).foldl (blakeRound m) v
  (List.range 8).map (fun i => xor64 (h.getD i 0) (xor64 (v.getD i 0) (v.getD (i + 8) 0)))

/-- Chop a byte list into blocks of (at most) 128 bytes. -/
def toBlocks (l : List Nat) : List (List Nat) :=
  if h : l = [] then []
  else (l.take 128) :: toBlocks (l.drop 128)
termination_by l.length
decreasing_by
  simp [List.length_drop]
  exact List.length_pos.mpr h

/-- Zero-pad a block to 128 bytes. -/
def padBlock (b : List Nat) : List Nat := b ++ List.replicate (128 - b.length) 0

/-- Fold the compression function over the message blocks, tracking the byte
counter `t`; the final (partial) block is padded and flagged. -/
def blakeLoop (h : List Nat) (t : Nat) : List (List Nat) → List Nat
  | [] => h
  | [b] => blakeCompress h (padBlock b) (t + b.length) true
  | b :: b2 :: bs => blakeLoop (blakeCompress h b (t + 128) false) (t + 128) (b2 :: bs)

/-- Little-endian serialization of a 64-bit word. -/
def le8 (w : Nat) : List Nat :=
  [w % 256, w / 2 ^ 8 % 256, w / 2 ^ 16 % 256, w / 2 ^ 24 % 256,
   w / 2 ^ 32 % 256, w / 2 ^ 40 % 256, w / 2 ^ 48 % 256, w / 2 ^ 56 % 256]

/-- Unkeyed blake2b with digest size `nn` bytes over a byte-list message. -/
def blake2b (nn : Nat) (msg : List Nat) : List Nat :=
  let h0 := blakeIV.set 0 (xor64 (blakeIV.getD 0 0) (0x01010000 + nn))
  let h :=
    match msg with
    | [] => blakeCompress h0 (List.replicate 128 0) 0 true
    | _ => blakeLoop h0 0 (toBlocks msg)
  ((h.map le8).flatten).take nn

/-- Lower-case hex digit. -/
def hexNibble (n : Nat) : Char := if n < 10 then Char.ofNat (48 + n) else Char.ofNat (87 + n)

/-- Two-digit lower-case hex rendering of one byte. -/
def byteHex (b : Nat) : List Char := [hexNibble (b / 16), hexNibble (b % 16)]

/-- Python `hexdigest()`: lower-case hex string of a byte list. -/
def hexdigest (bs : List Nat) : String := String.mk ((bs.map byteHex).flatten)

/-- UTF-8 encoding of one character. -/
def utf8Char (c : Char) : List Nat :=
  let n := c.toNat
  if n < 128 then [n]
  else if n < 2048 then [192 + n / 64, 128 + n % 64]
  else if n < 65536 then [224 + n / 4096, 128 + n / 64 % 64, 128 + n % 64]
  else [240 + n / 262144, 128 + n / 4096 % 64, 128 + n / 64 % 64, 128 + n % 64]

/-- UTF-8 encoding of a string, as `bytearray(s, "utf-8")`. -/
def utf8Encode (s : String) : List Nat := (s.data.map utf8Char).flatten

/-! ### src/parser.py -/

/-- `create_doc_id` (src/parser.py lines 55-61): blake2b (8-byte digest) hex
string over the record's fields joined by `"-"`. -/
def create_doc_id (record : List String) : String :=
  hexdigest (blake2b 8 (utf8Encode (String.intercalate "-" record)))

/-- `create_column_index` (src/parser.py lines 64-71): name-to-index mapping
of a header row, as the Python dict comprehension (later duplicates win). -/
def create_column_index (header : List String) : String → Option Nat :=
  fun name =>
    (List.range header.length).foldl
      (fun acc i => if header.getD i "" = name then some i else acc) none

/-- The fixed column names of the interactions table (module docstring,
src/parser.py lines 8-22). -/
def columnNames : List String :=
  ["gene_name", "gene_claim_name", "entrez_id", "interaction_claim_source",
   "interaction_types", "drug_claim_name", "drug_claim_primary_name",
   "drug_name", "drug_concept_id", "interaction_group_score", "PMIDs"]

/-- The column index built from the documented header. -/
def col_index : String → Option Nat := create_column_index columnNames

/-- `rec[col_index[name]]`: field access of a raw row by column name.  The
defaults are unreachable for the eleven documented column names on a
well-formed row. -/
def recField (rec : List String) (name : String) : String :=
  rec.getD ((col_index name).getD 0) ""

/-- The external collaborators of the parser: the two network lookup helpers
(modelled at the `query_entrez_id` / `query_chembl_id` boundary, src/parser.py
lines 25-52) and Python's builtin `float` conversion (`none` = `ValueError`). -/
structure Env where
  query_entrez_id : String → Option String
  query_chembl_id : String → Option String
  py_float : String → Option Float

/-- `is_empty` (src/parser.py lines 74-78): `None` or the empty string. -/
def is_empty (val : Option String) : Bool :=
  match val with
  | none => true
  | some s => s == ""

/-- `verify_entrez_id` (src/parser.py lines 81-93): return a non-empty entrez
id as-is; otherwise fall back to the gene-name lookup, or `None` when the
gene name is empty too. -/
def verify_entrez_id (env : Env) (entrez_id gene_name : Option String) : Option String :=
  if is_empty entrez_id then
    if is_empty gene_name then none
    else env.query_entrez_id (pyStr gene_name)
  else entrez_id

/-- `create_object_id` (src/parser.py lines 96-108). -/
def create_object_id (entrez_id gene_name : Option String) : Option String :=
  if is_empty entrez_id then
    if is_empty gene_name then none
    else some ("name:" ++ pyStr gene_name)
  else some ("NCBIGene:" ++ pyStr entrez_id)

/-- `verify_drug_concept_id` (src/parser.py lines 111-135): empty or
`wikidata:`-prefixed ids fall back to the drug-name lookup; `chembl:`-prefixed
ids yield `drug_concept_id.split(":")[-1]`; anything else raises
`ValueError` (modelled as `Except.error` carrying the message). -/
def verify_drug_concept_id (env : Env) (drug_concept_id drug_name : Option String) :
    Except String (Option String) :=
  if is_empty drug_concept_id || py_startswith (pyStr drug_concept_id) "wikidata:" then
    if is_empty drug_name then Except.ok none
    else Except.ok (env.query_chembl_id (pyStr drug_name))
  else if py_startswith (pyStr drug_concept_id) "chembl:" then
    Except.ok (some (py_last (py_split (pyStr drug_concept_id) ':')))
  else
    Except.error ("Cannot parse drug concept id " ++ pyStr drug_concept_id ++
      " (associated drug name is " ++ pyStr drug_name ++ ")")

/-- `create_subject_id` (src/parser.py lines 138-150). -/
def create_subject_id (drug_chembl_id drug_name : Option String) : Option String :=
  if is_empty drug_chembl_id then
    if is_empty drug_name then none
    else some ("name:" ++ pyStr drug_name)
  else some ("CHEMBL.COMPOUND:" ++ pyStr drug_chembl_id)

/-- `parse_interaction_types` (src/parser.py lines 153-159). -/
def parse_interaction_types (interaction_types : Option String) : List String :=
  if is_empty interaction_types then ["not_applicable"]
  else py_split (py_replace (pyStr interaction_types) ' ' '_') ','

/-- The `object` sub-document of an emitted document. -/
structure ObjectDoc where
  NCBIGene : String
  SYMBOL : String
  id : String

/-- The `subject` sub-document of an emitted document. -/
structure SubjectDoc where
  CHEMBL_COMPOUND : String
  drug_name : String
  id : String

/-- The `association` sub-document of an emitted document. -/
structure AssociationDoc where
  interaction_types : List String
  interaction_claim_source : String
  interaction_group_score : Float
  pmids : List String

/-- An output document before the framework-level cleanup (`dict_sweep` /
`unlist` are external collaborators and not modelled). -/
structure Doc where
  _id : String
  subject : SubjectDoc
  object : ObjectDoc
  association : AssociationDoc

/-- The local variable `entrez_id` after line 175 of `load_annotations`. -/
def verifiedEntrezId (env : Env) (rec : List String) : Option String :=
  verify_entrez_id env (some (recField rec "entrez_id")) (some (recField rec "gene_name"))

/-- The value `create_object_id(...)` bound to `object_id` at line 176 of
`load_annotations`; `none` signals that the row is discarded. -/
def resolvedObjectId (env : Env) (rec : List String) : Option String :=
  create_object_id (verifiedEntrezId env rec) (some (recField rec "gene_name"))

/-- The object block of `load_annotations` (src/parser.py lines 172-182):
`none` when the row is discarded at the gene side. -/
def objectPart (env : Env) (rec : List String) : Option ObjectDoc :=
  match create_object_id (verifiedEntrezId env rec) (some (recField rec "gene_name")) with
  | none => none
  | some object_id =>
    some { NCBIGene := (verifiedEntrezId env rec).getD ""
           SYMBOL := recField rec "gene_name"
           id := object_id }

/-- The local variable `drug_chembl_id` after line 187 of `load_annotations`
(in the `Except` monad because `verify_drug_concept_id` may raise). -/
def verifiedChemblId (env : Env) (rec : List String) : Except String (Option String) :=
  verify_drug_concept_id env (some (recField rec "drug_concept_id")) (some (recField rec "drug_name"))

/-- The value bound to `subject_id` at line 188 of `load_annotations`,
propagating the possible `ValueError`. -/
def resolvedSubjectId (env : Env) (rec : List String) : Except String (Option String) :=
  match verifiedChemblId env rec with
  | Except.error e => Except.error e
  | Except.ok c => Except.ok (create_subject_id c (some (recField rec "drug_name")))

/-- The subject block of `load_annotations` (src/parser.py lines 184-194):
`.ok none` when the row is discarded at the drug side. -/
def subjectPart (env : Env) (rec : List String) : Except String (Option SubjectDoc) :=
  match verifiedChemblId env rec with
  | Except.error e => Except.error e
  | Except.ok drug_chembl_id =>
    match create_subject_id drug_chembl_id (some (recField rec "drug_name")) with
    | none => Except.ok none
    | some subject_id =>
      Except.ok (some { CHEMBL_COMPOUND := drug_chembl_id.getD ""
                        drug_name := recField rec "drug_name"
                        id := subject_id })

/-- The association block of `load_annotations` (src/parser.py lines
196-205); fails when `float(interaction_group_score)` raises. -/
def associationPart (env : Env) (rec : List String) : Except String AssociationDoc :=
  match env.py_float (recField rec "interaction_group_score") with
  | none => Except.error ("could not convert string to float: " ++
      recField rec "interaction_group_score")
  | some score =>
    Except.ok { interaction_types := parse_interaction_types (some (recField rec "interaction_types"))
                interaction_claim_source := recField rec "interaction_claim_source"
                interaction_group_score := score
                pmids := py_split (recField rec "PMIDs") ',' }

/-- The loop body of `load_annotations` (src/parser.py lines 168-210) on one
raw row: `.ok (some doc)` when a document is yielded, `.ok none` when the row
is discarded by one of the two `continue` paths, `.error` when the row raises. -/
def process_row (env : Env) (rec : List String) : Except String (Option Doc) :=
  match objectPart env rec with
  | none => Except.ok none
  | some ob =>
    match subjectPart env rec with
    | Except.error e => Except.error e
    | Except.ok none => Except.ok none
    | Except.ok (some sb) =>
      match associationPart env rec with
      | Except.error e => Except.error e
      | Except.ok assoc =>
        Except.ok (some { _id := create_doc_id rec
                          subject := sb
                          object := ob
                          association := assoc })

/-- `load_annotations` over the data rows (header already consumed): the
documents of the generator run, or the first raised error, which aborts the
whole run. -/
def load_annotations (env : Env) : List (List String) → Except String (List Doc)
  | [] => Except.ok []
  | r :: rs =>
    match process_row env r with
    | Except.error e => Except.error e
    | Except.ok none => load_annotations env rs
    | Except.ok (some d) =>
      match load_annotations env rs with
      | Except.error e => Except.error e
      | Except.ok ds => Except.ok (d :: ds)

/-- Spec-side definition for the claim about `chembl:` ids: the substring
after the FIRST colon (the spec's wording), to be compared with what the
code computes. -/
def spec_substring_after_first_colon (s : String) : String :=
  String.intercalate ":" ((py_split s ':').drop 1)

/-! ### Concrete inputs for witnesses and counterexamples -/

/-- A lookup/float environment for concrete runs: both lookups miss, every
score parses. -/
def env0 : Env :=
  { query_entrez_id := fun _ => none
    query_chembl_id := fun _ => none
    py_float := fun _ => some 0 }

/-- A fully resolvable row. -/
def row_ok : List String :=
  ["GENE1", "gcn", "672", "TTD", "agonist,antagonist", "dcn", "dpn",
   "DRUGX", "chembl:CHEMBL942", "0.9", "123,456"]

/-- The document emitted for `row_ok` under `env0`. -/
def doc_ok : Doc :=
  { _id := create_doc_id row_ok
    subject := { CHEMBL_COMPOUND := "CHEMBL942", drug_name := "DRUGX",
                 id := "CHEMBL.COMPOUND:CHEMBL942" }
    object := { NCBIGene := "672", SYMBOL := "GENE1", id := "NCBIGene:672" }
    association := { interaction_types := ["agonist", "antagonist"]
                     interaction_claim_source := "TTD"
                     interaction_group_score := 0
                     pmids := ["123", "456"] } }

/-- A row with an empty gene side and an unparseable drug concept id. -/
def row_drop_bad_dci : List String :=
  ["", "", "", "TTD", "", "", "", "DRUGX", "notaprefix:123", "0.9", ""]

/-- A row with a resolvable gene side and an unparseable drug concept id. -/
def row_abort_bad_dci : List String :=
  ["GENE1", "", "672", "TTD", "", "", "", "DRUGX", "notaprefix:123", "0.9", ""]

/-- A resolvable row with empty `interaction_types` and `PMIDs` fields. -/
def row_pmids_empty : List String :=
  ["GENE1", "", "672", "TTD", "", "", "", "DRUGX", "chembl:CHEMBL942", "0.9", ""]

/-- The document emitted for `row_pmids_empty` under `env0`. -/
def doc_pmids_empty : Doc :=
  { _id := create_doc_id row_pmids_empty
    subject := { CHEMBL_COMPOUND := "CHEMBL942", drug_name := "DRUGX",
                 id := "CHEMBL.COMPOUND:CHEMBL942" }
    object := { NCBIGene := "672", SYMBOL := "GENE1", id := "NCBIGene:672" }
    association := { interaction_types := ["not_applicable"]
                     interaction_claim_source := "TTD"
                     interaction_group_score := 0
                     pmids := [""] } }

/-! ### Helper lemmas -/

/-- A string starting with `"chembl:"` is non-empty and does not start with
`"wikidata:"` (the branch order of `verify_drug_concept_id`). -/
theorem startswith_chembl_facts (s : String) (h : py_startswith s "chembl:" = true) :
    py_startswith s "wikidata:" = false ∧ is_empty (some s) = false := by
  unfold py_startswith at h ⊢
  cases s with
  | mk data =>
    cases data with
    | nil => simp [List.isPrefixOf] at h
    | cons c cs =>
      simp [List.isPrefixOf] at h ⊢
      constructor
      · intro hw
        rw [← h.1] at hw
        simp at hw
      · simp only [is_empty]
        rw [beq_eq_false_iff_ne]
        intro heq
        have hdata := congrArg String.data heq
        simp at hdata

/-- Appending to a non-empty string yields a non-empty string. -/
theorem str_append_ne_empty (s t : String) (hs : s.data ≠ []) : s ++ t ≠ "" := by
  intro h
  have hd := congrArg String.data h
  rw [String.data_append] at hd
  simp at hd
  exact hs hd.1

/-- The object block is skipped exactly when the object id resolves to null. -/
theorem objectPart_none_iff (env : Env) (rec : List String) :
    objectPart env rec = none ↔ resolvedObjectId env rec = none := by
  unfold objectPart resolvedObjectId
  cases hc : create_object_id (verifiedEntrezId env rec) (some (recField rec "gene_name")) <;>
    simp [hc]

/-- A built object sub-document carries the resolved object id. -/
theorem objectPart_some_id (env : Env) (rec : List String) (ob : ObjectDoc)
    (h : objectPart env rec = some ob) : resolvedObjectId env rec = some ob.id := by
  unfold objectPart at h
  unfold resolvedObjectId
  cases hc : create_object_id (verifiedEntrezId env rec) (some (recField rec "gene_name")) <;>
    rw [hc] at h
  · exact absurd h (by simp)
  · simp only [Option.some.injEq] at h
    subst h
    rfl

/-- A resolvable object id yields an object sub-document carrying it. -/
theorem objectPart_of_resolved_some (env : Env) (rec : List String) (oid : String)
    (h : resolvedObjectId env rec = some oid) :
    ∃ ob, objectPart env rec = some ob ∧ ob.id = oid := by
  unfold resolvedObjectId at h
  unfold objectPart
  rw [h]
  exact ⟨_, rfl, rfl⟩

/-- The subject block is skipped exactly when the subject id resolves to null. -/
theorem subjectPart_ok_none_iff (env : Env) (rec : List String) :
    subjectPart env rec = Except.ok none ↔ resolvedSubjectId env rec = Except.ok none := by
  unfold subjectPart resolvedSubjectId
  cases hv : verifiedChemblId env rec with
  | error e => simp
  | ok c =>
    cases hs : create_subject_id c (some (recField rec "drug_name")) <;> simp [hs]

/-- Equation for `subjectPart` when the chembl-id verification raised. -/
theorem subjectPart_eq_of_error (env : Env) (rec : List String) (e : String)
    (hv : verifiedChemblId env rec = Except.error e) :
    subjectPart env rec = Except.error e := by
  unfold subjectPart
  rw [hv]

/-- Equation for `subjectPart` when the chembl-id verification succeeded. -/
theorem subjectPart_eq_of_ok (env : Env) (rec : List String) (c : Option String)
    (hv : verifiedChemblId env rec = Except.ok c) :
    subjectPart env rec =
      match create_subject_id c (some (recField rec "drug_name")) with
      | none => Except.ok none
      | some subject_id =>
        Except.ok (some { CHEMBL_COMPOUND := c.getD ""
                          drug_name := recField rec "drug_name"
                          id := subject_id }) := by
  unfold subjectPart
  rw [hv]

/-- Equation for `resolvedSubjectId` when the verification raised. -/
theorem resolvedSubjectId_eq_of_error (env : Env) (rec : List String) (e : String)
    (hv : verifiedChemblId env rec = Except.error e) :
    resolvedSubjectId env rec = Except.error e := by
  unfold resolvedSubjectId
  rw [hv]

/-- Equation for `resolvedSubjectId` when the verification succeeded. -/
theorem resolvedSubjectId_eq_of_ok (env : Env) (rec : List String) (c : Option String)
    (hv : verifiedChemblId env rec = Except.ok c) :
    resolvedSubjectId env rec =
      Except.ok (create_subject_id c (some (recField rec "drug_name"))) := by
  unfold resolvedSubjectId
  rw [hv]

/-- A built subject sub-document carries the resolved subject id. -/
theorem subjectPart_ok_some_id (env : Env) (rec : List String) (sb : SubjectDoc)
    (h : subjectPart env rec = Except.ok (some sb)) :
    resolvedSubjectId env rec = Except.ok (some sb.id) := by
  cases hv : verifiedChemblId env rec with
  | error e =>
    rw [subjectPart_eq_of_error env rec e hv] at h
    exact absurd h (by simp)
  | ok c =>
    rw [subjectPart_eq_of_ok env rec c hv] at h
    rw [resolvedSubjectId_eq_of_ok env rec c hv]
    cases hs : create_subject_id c (some (recField rec "drug_name")) <;> rw [hs] at h
    · exact absurd h (by simp)
    · simp only [Except.ok.injEq, Option.some.injEq] at h
      subst h
      rfl

/-- A resolvable subject id yields a subject sub-document carrying it. -/
theorem subjectPart_of_resolved_some (env : Env) (rec : List String) (sid : String)
    (h : resolvedSubjectId env rec = Except.ok (some sid)) :
    ∃ sb, subjectPart env rec = Except.ok (some sb) ∧ sb.id = sid := by
  cases hv : verifiedChemblId env rec with
  | error e =>
    rw [resolvedSubjectId_eq_of_error env rec e hv] at h
    exact absurd h (by simp)
  | ok c =>
    rw [resolvedSubjectId_eq_of_ok env rec c hv] at h
    simp only [Except.ok.injEq] at h
    rw [subjectPart_eq_of_ok env rec c hv, h]
    exact ⟨_, rfl, rfl⟩

/-- A built subject sub-document comes from a successful chembl-id
verification followed by `create_subject_id`. -/
theorem subjectPart_ok_some_chembl (env : Env) (rec : List String) (sb : SubjectDoc)
    (h : subjectPart env rec = Except.ok (some sb)) :
    ∃ cid, verifiedChemblId env rec = Except.ok cid ∧
      create_subject_id cid (some (recField rec "drug_name")) = some sb.id := by
  cases hv : verifiedChemblId env rec with
  | error e =>
    rw [subjectPart_eq_of_error env rec e hv] at h
    exact absurd h (by simp)
  | ok c =>
    rw [subjectPart_eq_of_ok env rec c hv] at h
    cases hs : create_subject_id c (some (recField rec "drug_name")) <;> rw [hs] at h
    · exact absurd h (by simp)
    · simp only [Except.ok.injEq, Option.some.injEq] at h
      subst h
      exact ⟨c, rfl, by rw [hs]⟩

/-- Case analysis of `create_object_id` on a resolved id. -/
theorem create_object_id_cases (e g : Option String) (oid : String)
    (h : create_object_id e g = some oid) :
    (is_empty e = false ∧ oid = "NCBIGene:" ++ pyStr e) ∨
    (is_empty e = true ∧ is_empty g = false ∧ oid = "name:" ++ pyStr g) := by
  unfold create_object_id at h
  cases hie : is_empty e with
  | false =>
    rw [hie] at h
    simp at h
    exact Or.inl ⟨rfl, h.symm⟩
  | true =>
    rw [hie] at h
    cases hig : is_empty g with
    | true => rw [hig] at h; simp at h
    | false =>
      rw [hig] at h
      simp at h
      exact Or.inr ⟨rfl, rfl, h.symm⟩

/-- Case analysis of `create_subject_id` on a resolved id. -/
theorem create_subject_id_cases (c dn : Option String) (sid : String)
    (h : create_subject_id c dn = some sid) :
    (is_empty c = false ∧ sid = "CHEMBL.COMPOUND:" ++ pyStr c) ∨
    (is_empty c = true ∧ is_empty dn = false ∧ sid = "name:" ++ pyStr dn) := by
  unfold create_subject_id at h
  cases hie : is_empty c with
  | false =>
    rw [hie] at h
    simp at h
    exact Or.inl ⟨rfl, h.symm⟩
  | true =>
    rw [hie] at h
    cases hig : is_empty dn with
    | true => rw [hig] at h; simp at h
    | false =>
      rw [hig] at h
      simp at h
      exact Or.inr ⟨rfl, rfl, h.symm⟩

/-- An emitted document decomposes into the three successfully built blocks. -/
theorem process_row_ok_some_parts (env : Env) (rec : List String) (d : Doc)
    (h : process_row env rec = Except.ok (some d)) :
    objectPart env rec = some d.object ∧
    subjectPart env rec = Except.ok (some d.subject) ∧
    associationPart env rec = Except.ok d.association := by
  unfold process_row at h
  cases hO : objectPart env rec with
  | none => rw [hO] at h; exact absurd h (by simp)
  | some ob =>
    rw [hO] at h
    cases hS : subjectPart env rec with
    | error e => rw [hS] at h; exact absurd h (by simp)
    | ok osb =>
      rw [hS] at h
      cases osb with
      | none => exact absurd h (by simp)
      | some sb =>
        cases hA : associationPart env rec with
        | error e => rw [hA] at h; exact absurd h (by simp)
        | ok assoc =>
          rw [hA] at h
          simp only [Except.ok.injEq, Option.some.injEq] at h
          subst h
          exact ⟨rfl, rfl, rfl⟩

/-! ### Claims -/

/-- C1: a row yields a document if and only if both the resolved object id
and the resolved subject id are non-null; when either is null the row is
dropped entirely (result `.ok none`), and every emitted document carries
both resolved ids, so no partial document is ever yielded.  (Rows on which
the run aborts with an error are outside the emit-or-drop dichotomy and are
excluded by the hypothesis.) -/
theorem c1_emit_iff_both_ids_resolved (env : Env) (rec : List String) (res : Option Doc)
    (h : process_row env rec = Except.ok res) :
    (res.isSome = true ↔
      (resolvedObjectId env rec).isSome = true ∧
      ∃ sid, resolvedSubjectId env rec = Except.ok (some sid)) ∧
    (∀ d, res = some d →
      resolvedObjectId env rec = some d.object.id ∧
      resolvedSubjectId env rec = Except.ok (some d.subject.id)) := by
  unfold process_row at h
  cases hO : objectPart env rec with
  | none =>
    rw [hO] at h
    simp only [Except.ok.injEq] at h
    subst h
    have hro := (objectPart_none_iff env rec).mp hO
    refine ⟨?_, ?_⟩
    · simp [hro]
    · intro d hd
      simp at hd
  | some ob =>
    rw [hO] at h
    have hro := objectPart_some_id env rec ob hO
    cases hS : subjectPart env rec with
    | error e =>
      rw [hS] at h
      exact absurd h (by simp)
    | ok osb =>
      rw [hS] at h
      cases osb with
      | none =>
        simp only [Except.ok.injEq] at h
        subst h
        have hrs := (subjectPart_ok_none_iff env rec).mp hS
        refine ⟨?_, ?_⟩
        · simp only [Option.isSome_none, Bool.false_eq_true, false_iff]
          intro hc
          obtain ⟨sid, hsid⟩ := hc.2
          rw [hrs] at hsid
          simp at hsid
        · intro d hd
          simp at hd
      | some sb =>
        have hrs := subjectPart_ok_some_id env rec sb hS
        cases hA : associationPart env rec with
        | error e =>
          rw [hA] at h
          exact absurd h (by simp)
        | ok assoc =>
          rw [hA] at h
          simp only [Except.ok.injEq] at h
          subst h
          refine ⟨?_, ?_⟩
          · constructor
            · intro _
              exact ⟨by simp [hro], sb.id, hrs⟩
            · intro _
              simp
          · intro d hd
            simp only [Option.some.injEq] at hd
            subst hd
            exact ⟨hro, hrs⟩

/-- C2 counterexample: a row whose `drug_concept_id` is non-empty with an
unrecognized prefix but whose gene side is fully empty is silently dropped
(`.ok none`) — no parsing error is raised — so the claim "for every row …
the run raises a parsing error" is false as stated. -/
theorem c2_counterexample :
    recField row_drop_bad_dci "drug_concept_id" = "notaprefix:123" ∧
    ("notaprefix:123" : String) ≠ "" ∧
    py_startswith "notaprefix:123" "wikidata:" = false ∧
    py_startswith "notaprefix:123" "chembl:" = false ∧
    process_row env0 row_drop_bad_dci = Except.ok none ∧
    load_annotations env0 [row_drop_bad_dci] = Except.ok [] :=
  ⟨rfl, by decide, by decide, by decide, rfl, rfl⟩

/-- C2 (amended): for every row whose object id resolves non-null and whose
`drug_concept_id` is non-empty and starts with neither `"wikidata:"` nor
`"chembl:"`, the run raises a parsing error naming the offending
`drug_concept_id` value and the associated drug name, aborting the whole
run rather than silently skipping the row. -/
theorem c2_bad_drug_concept_id_aborts (env : Env) (rec : List String) (rest : List (List String))
    (hobj : (resolvedObjectId env rec).isSome = true)
    (h1 : recField rec "drug_concept_id" ≠ "")
    (h2 : py_startswith (recField rec "drug_concept_id") "wikidata:" = false)
    (h3 : py_startswith (recField rec "drug_concept_id") "chembl:" = false) :
    process_row env rec = Except.error
      ("Cannot parse drug concept id " ++ recField rec "drug_concept_id" ++
        " (associated drug name is " ++ recField rec "drug_name" ++ ")") ∧
    load_annotations env (rec :: rest) = Except.error
      ("Cannot parse drug concept id " ++ recField rec "drug_concept_id" ++
        " (associated drug name is " ++ recField rec "drug_name" ++ ")") := by
  have hv : verifiedChemblId env rec = Except.error
      ("Cannot parse drug concept id " ++ recField rec "drug_concept_id" ++
        " (associated drug name is " ++ recField rec "drug_name" ++ ")") := by
    unfold verifiedChemblId verify_drug_concept_id
    simp [is_empty, pyStr, beq_eq_false_iff_ne.mpr h1, h2, h3]
  have hp : process_row env rec = Except.error
      ("Cannot parse drug concept id " ++ recField rec "drug_concept_id" ++
        " (associated drug name is " ++ recField rec "drug_name" ++ ")") := by
    unfold process_row
    cases hO : objectPart env rec with
    | none =>
      rw [(objectPart_none_iff env rec).mp hO] at hobj
      simp at hobj
    | some ob =>
      rw [subjectPart_eq_of_error env rec _ hv]
  refine ⟨hp, ?_⟩
  unfold load_annotations
  rw [hp]

/-- C3 counterexample: for `drug_concept_id = "chembl:a:b"` the code returns
`"b"` (the segment after the LAST colon), not `"a:b"` (the substring after
the first colon), so the claim is false as stated. -/
theorem c3_counterexample :
    py_startswith "chembl:a:b" "chembl:" = true ∧
    verify_drug_concept_id env0 (some "chembl:a:b") (some "dg") = Except.ok (some "b") ∧
    spec_substring_after_first_colon "chembl:a:b" = "a:b" ∧
    ("b" : String) ≠ "a:b" :=
  ⟨by decide, rfl, by decide, by decide⟩

/-- C3 (amended): for every `drug_concept_id` starting with `"chembl:"`,
`verify_drug_concept_id` returns the substring after the LAST `":"` (Python
`drug_concept_id.split(":")[-1]`), for any lookup environment — i.e. without
issuing any lookup. -/
theorem c3_chembl_takes_last_segment (env : Env) (dci : String) (dn : Option String)
    (h : py_startswith dci "chembl:" = true) :
    verify_drug_concept_id env (some dci) dn =
      Except.ok (some (py_last (py_split dci ':'))) := by
  obtain ⟨hw, he⟩ := startswith_chembl_facts dci h
  unfold verify_drug_concept_id
  simp [pyStr, he, hw, h]

/-- C4: the document id is a pure, deterministic function of the raw
record's field values in order: records with element-wise equal field
sequences receive the same id. -/
theorem c4_doc_id_deterministic (r1 r2 : List String)
    (hlen : r1.length = r2.length)
    (hfields : ∀ i, i < r1.length → r1.getD i "" = r2.getD i "") :
    create_doc_id r1 = create_doc_id r2 := by
  have heq : r1 = r2 := by
    apply List.ext_getElem hlen
    intro i h1 h2
    have hi := hfields i h1
    rwa [List.getD_eq_getElem, List.getD_eq_getElem] at hi
  rw [heq]

/-- C5: in every emitted document, `object.id` is `"NCBIGene:" + entrezId`
when the resolved entrez id is non-empty and otherwise `"name:" + geneName`
with a non-empty gene name; symmetrically `subject.id` is
`"CHEMBL.COMPOUND:" + chemblId` or `"name:" + drugName`; a null id is never
present (both ids are non-empty strings of one of the two forms). -/
theorem c5_id_shapes (env : Env) (rec : List String) (d : Doc)
    (h : process_row env rec = Except.ok (some d)) :
    ((is_empty (verifiedEntrezId env rec) = false ∧
        d.object.id = "NCBIGene:" ++ pyStr (verifiedEntrezId env rec)) ∨
      (is_empty (verifiedEntrezId env rec) = true ∧
        is_empty (some (recField rec "gene_name")) = false ∧
        d.object.id = "name:" ++ recField rec "gene_name")) ∧
    (∃ cid, verifiedChemblId env rec = Except.ok cid ∧
      ((is_empty cid = false ∧ d.subject.id = "CHEMBL.COMPOUND:" ++ pyStr cid) ∨
        (is_empty cid = true ∧ is_empty (some (recField rec "drug_name")) = false ∧
          d.subject.id = "name:" ++ recField rec "drug_name"))) ∧
    d.object.id ≠ "" ∧ d.subject.id ≠ "" := by
  obtain ⟨hO, hS, hA⟩ := process_row_ok_some_parts env rec d h
  have hro := objectPart_some_id env rec d.object hO
  unfold resolvedObjectId at hro
  have hobj := create_object_id_cases (verifiedEntrezId env rec)
    (some (recField rec "gene_name")) d.object.id hro
  simp only [pyStr] at hobj
  obtain ⟨cid, hv, hcs⟩ := subjectPart_ok_some_chembl env rec d.subject hS
  have hsubj := create_subject_id_cases cid (some (recField rec "drug_name")) d.subject.id hcs
  simp only [pyStr] at hsubj
  refine ⟨hobj, ⟨cid, hv, hsubj⟩, ?_, ?_⟩
  · rcases hobj with ⟨_, hid⟩ | ⟨_, _, hid⟩ <;> rw [hid]
    · exact str_append_ne_empty _ _ (by decide)
    · exact str_append_ne_empty _ _ (by decide)
  · rcases hsubj with ⟨_, hid⟩ | ⟨_, _, hid⟩ <;> rw [hid]
    · exact str_append_ne_empty _ _ (by decide)
    · exact str_append_ne_empty _ _ (by decide)

/-- C6: `verify_entrez_id` returns a non-empty entrez id unchanged; returns
null when both the entrez id and the gene name are empty; and when only the
entrez id is empty it returns exactly the gene lookup's result (which may
itself be null). -/
theorem c6_verify_entrez_id_cases (env : Env) (e g : Option String) :
    (is_empty e = false → verify_entrez_id env e g = e) ∧
    (is_empty e = true → is_empty g = true → verify_entrez_id env e g = none) ∧
    (is_empty e = true → is_empty g = false →
      verify_entrez_id env e g = env.query_entrez_id (pyStr g)) := by
  refine ⟨?_, ?_, ?_⟩
  · intro h1
    simp [verify_entrez_id, h1]
  · intro h1 h2
    simp [verify_entrez_id, h1, h2]
  · intro h1 h2
    simp [verify_entrez_id, h1, h2]

/-- C7: `parse_interaction_types` maps the empty (or null) field to the
sentinel `["not_applicable"]`, and any non-empty field to the comma-split of
the field with spaces replaced by underscores; in particular
`"partial agonist"` gives `["partial_agonist"]` and `"agonist,antagonist"`
gives `["agonist", "antagonist"]`. -/
theorem c7_parse_interaction_types_spec :
    parse_interaction_types none = ["not_applicable"] ∧
    parse_interaction_types (some "") = ["not_applicable"] ∧
    (∀ s : String, s ≠ "" →
      parse_interaction_types (some s) = py_split (py_replace s ' ' '_') ',') ∧
    parse_interaction_types (some "partial agonist") = ["partial_agonist"] ∧
    parse_interaction_types (some "agonist,antagonist") = ["agonist", "antagonist"] := by
  refine ⟨rfl, rfl, ?_, by decide, by decide⟩
  intro s hs
  unfold parse_interaction_types
  simp [is_empty, pyStr, beq_eq_false_iff_ne.mpr hs]

/-- C8: the `pmids` of every emitted document are the raw comma-split of the
`PMIDs` field with no further validation, so an empty field yields the
single-element list `[""]` — not the sentinel used for empty
interaction-types. -/
theorem c8_pmids_raw_split (env : Env) (rec : List String) (d : Doc)
    (h : process_row env rec = Except.ok (some d)) :
    d.association.pmids = py_split (recField rec "PMIDs") ',' ∧
    (recField rec "PMIDs" = "" → d.association.pmids = [""]) ∧
    (recField rec "PMIDs" = "" →
      d.association.pmids ≠ parse_interaction_types (some "")) := by
  obtain ⟨hO, hS, hA⟩ := process_row_ok_some_parts env rec d h
  unfold associationPart at hA
  cases hf : env.py_float (recField rec "interaction_group_score") <;> rw [hf] at hA
  · exact absurd hA (by simp)
  · simp only [Except.ok.injEq] at hA
    have hp : d.association.pmids = py_split (recField rec "PMIDs") ',' := by
      rw [← hA]
    refine ⟨hp, ?_, ?_⟩
    · intro he
      rw [hp, he]
      decide
    · intro he
      rw [hp, he]
      decide

/-- C9: a row whose object id resolves to null (both entrez id and gene name
empty) is discarded before the drug side is evaluated: for EVERY lookup
environment the result is `.ok none` — no drug lookup is consulted and no
drug-concept-id parsing error can be raised, regardless of the row's
`drug_concept_id`. -/
theorem c9_null_object_skips_drug_side (env : Env) (rec : List String)
    (h1 : recField rec "entrez_id" = "") (h2 : recField rec "gene_name" = "") :
    resolvedObjectId env rec = none ∧ process_row env rec = Except.ok none := by
  have hre : verifiedEntrezId env rec = none := by
    unfold verifiedEntrezId verify_entrez_id
    rw [h1, h2]
    simp [is_empty]
  have hro : resolvedObjectId env rec = none := by
    unfold resolvedObjectId create_object_id
    rw [hre, h2]
    simp [is_empty]
  refine ⟨hro, ?_⟩
  unfold process_row
  rw [(objectPart_none_iff env rec).mpr hro]

/-- C10: `create_doc_id` is not injective on raw records: the separator `"-"`
is not escaped, so the distinct records `["a-b"]` and `["a", "b"]` join to
the same byte string and receive the same id with certainty. -/
theorem c10_doc_id_collides_on_join :
    (["a-b"] : List String) ≠ ["a", "b"] ∧
    create_doc_id ["a-b"] = create_doc_id ["a", "b"] := by
  refine ⟨by decide, ?_⟩
  unfold create_doc_id
  exact congrArg (fun s => hexdigest (blake2b 8 (utf8Encode s))) (by decide)

/-! ### Witnesses -/

/-- C1 witness: the fully resolvable `row_ok` under `env0`. -/
theorem c1_witness :
    process_row env0 row_ok = Except.ok (some doc_ok) ∧
    (((some doc_ok : Option Doc)).isSome = true ↔
      (resolvedObjectId env0 row_ok).isSome = true ∧
      ∃ sid, resolvedSubjectId env0 row_ok = Except.ok (some sid)) ∧
    (∀ d, (some doc_ok : Option Doc) = some d →
      resolvedObjectId env0 row_ok = some d.object.id ∧
      resolvedSubjectId env0 row_ok = Except.ok (some d.subject.id)) :=
  ⟨rfl, (c1_emit_iff_both_ids_resolved env0 row_ok (some doc_ok) rfl).1,
    (c1_emit_iff_both_ids_resolved env0 row_ok (some doc_ok) rfl).2⟩

/-- C2 witness: `row_abort_bad_dci` has a resolvable gene side and an
unrecognized drug-concept-id prefix, so the run aborts with the parsing
error naming the value and the drug name. -/
theorem c2_witness :
    (resolvedObjectId env0 row_abort_bad_dci).isSome = true ∧
    recField row_abort_bad_dci "drug_concept_id" ≠ "" ∧
    py_startswith (recField row_abort_bad_dci "drug_concept_id") "wikidata:" = false ∧
    py_startswith (recField row_abort_bad_dci "drug_concept_id") "chembl:" = false ∧
    process_row env0 row_abort_bad_dci = Except.error
      ("Cannot parse drug concept id " ++ recField row_abort_bad_dci "drug_concept_id" ++
        " (associated drug name is " ++ recField row_abort_bad_dci "drug_name" ++ ")") ∧
    load_annotations env0 [row_abort_bad_dci] = Except.error
      ("Cannot parse drug concept id " ++ recField row_abort_bad_dci "drug_concept_id" ++
        " (associated drug name is " ++ recField row_abort_bad_dci "drug_name" ++ ")") :=
  ⟨rfl, by decide, by decide, by decide,
    (c2_bad_drug_concept_id_aborts env0 row_abort_bad_dci [] rfl (by decide) (by decide)
      (by decide)).1,
    (c2_bad_drug_concept_id_aborts env0 row_abort_bad_dci [] rfl (by decide) (by decide)
      (by decide)).2⟩

/-- C3 witness: `"chembl:CHEMBL942"` yields its last colon-separated
segment, `"CHEMBL942"`, with no lookup. -/
theorem c3_witness :
    py_startswith "chembl:CHEMBL942" "chembl:" = true ∧
    verify_drug_concept_id env0 (some "chembl:CHEMBL942") (some "DRUGX") =
      Except.ok (some (py_last (py_split "chembl:CHEMBL942" ':'))) ∧
    py_last (py_split "chembl:CHEMBL942" ':') = "CHEMBL942" :=
  ⟨by decide,
    c3_chembl_takes_last_segment env0 "chembl:CHEMBL942" (some "DRUGX") (by decide),
    by decide⟩

/-- C4 witness: `row_ok` compared with itself field by field. -/
theorem c4_witness :
    row_ok.length = row_ok.length ∧
    (∀ i, i < row_ok.length → row_ok.getD i "" = row_ok.getD i "") ∧
    create_doc_id row_ok = create_doc_id row_ok :=
  ⟨rfl, fun _ _ => rfl, c4_doc_id_deterministic row_ok row_ok rfl (fun _ _ => rfl)⟩

/-- C5 witness: the document emitted for `row_ok` under `env0`. -/
theorem c5_witness :
    process_row env0 row_ok = Except.ok (some doc_ok) ∧
    (((is_empty (verifiedEntrezId env0 row_ok) = false ∧
        doc_ok.object.id = "NCBIGene:" ++ pyStr (verifiedEntrezId env0 row_ok)) ∨
      (is_empty (verifiedEntrezId env0 row_ok) = true ∧
        is_empty (some (recField row_ok "gene_name")) = false ∧
        doc_ok.object.id = "name:" ++ recField row_ok "gene_name")) ∧
    (∃ cid, verifiedChemblId env0 row_ok = Except.ok cid ∧
      ((is_empty cid = false ∧ doc_ok.subject.id = "CHEMBL.COMPOUND:" ++ pyStr cid) ∨
        (is_empty cid = true ∧ is_empty (some (recField row_ok "drug_name")) = false ∧
          doc_ok.subject.id = "name:" ++ recField row_ok "drug_name"))) ∧
    doc_ok.object.id ≠ "" ∧ doc_ok.subject.id ≠ "") :=
  ⟨rfl, c5_id_shapes env0 row_ok doc_ok rfl⟩

/-- C6 witness: the three cases of `verify_entrez_id` at concrete inputs. -/
theorem c6_witness :
    is_empty (some "672") = false ∧
    verify_entrez_id env0 (some "672") (some "BRCA1") = some "672" ∧
    is_empty (none : Option String) = true ∧
    is_empty (some "") = true ∧
    verify_entrez_id env0 none (some "") = none ∧
    is_empty (some "BRCA1") = false ∧
    verify_entrez_id env0 (some "") (some "BRCA1") = env0.query_entrez_id (pyStr (some "BRCA1")) :=
  ⟨by decide, (c6_verify_entrez_id_cases env0 (some "672") (some "BRCA1")).1 (by decide),
    rfl, by decide, (c6_verify_entrez_id_cases env0 none (some "")).2.1 rfl (by decide),
    by decide,
    (c6_verify_entrez_id_cases env0 (some "") (some "BRCA1")).2.2 (by decide) (by decide)⟩

/-- C7 witness: the non-empty case at `"partial agonist"`. -/
theorem c7_witness :
    ("partial agonist" : String) ≠ "" ∧
    parse_interaction_types (some "partial agonist") =
      py_split (py_replace "partial agonist" ' ' '_') ',' :=
  ⟨by decide, c7_parse_interaction_types_spec.2.2.1 "partial agonist" (by decide)⟩

/-- C8 witness: `row_pmids_empty` has an empty `PMIDs` field; its document
carries `pmids = [""]`, not the sentinel. -/
theorem c8_witness :
    process_row env0 row_pmids_empty = Except.ok (some doc_pmids_empty) ∧
    doc_pmids_empty.association.pmids = py_split (recField row_pmids_empty "PMIDs") ',' ∧
    (recField row_pmids_empty "PMIDs" = "" → doc_pmids_empty.association.pmids = [""]) ∧
    (recField row_pmids_empty "PMIDs" = "" →
      doc_pmids_empty.association.pmids ≠ parse_interaction_types (some "")) :=
  ⟨rfl, (c8_pmids_raw_split env0 row_pmids_empty doc_pmids_empty rfl).1,
    (c8_pmids_raw_split env0 row_pmids_empty doc_pmids_empty rfl).2.1,
    (c8_pmids_raw_split env0 row_pmids_empty doc_pmids_empty rfl).2.2⟩

/-- C9 witness: `row_drop_bad_dci` has an empty gene side and an
unparseable drug concept id, yet is silently dropped. -/
theorem c9_witness :
    recField row_drop_bad_dci "entrez_id" = "" ∧
    recField row_drop_bad_dci "gene_name" = "" ∧
    resolvedObjectId env0 row_drop_bad_dci = none ∧
    process_row env0 row_drop_bad_dci = Except.ok none :=
  ⟨rfl, rfl, (c9_null_object_skips_drug_side env0 row_drop_bad_dci rfl rfl).1,
    (c9_null_object_skips_drug_side env0 row_drop_bad_dci rfl rfl).2⟩
